import Mathlib

/-!
# SoftRF `Time.cpp`: NTP one-shot synchronisation and the uptime tracker

A shallow embedding of `src/system/Time.cpp`:

* `Time_loop` (the uptime tracker) is a pure step function on the module's
  global state (`UpTime`, `UpTime_Marker`) extended with a counter of the
  `SoC->reset()` requests issued so far;
* `Time_setup` (the NTP client) is a pure function of the environment's answers
  (WiFi mode, resolver, `parsePacket` results, received datagrams) that returns
  the global state together with the trace of collaborator calls it made.

`unsigned long` and `uint32_t` are 32-bit, as on the Arduino targets of the
firmware; every machine operation that may wrap is written with an explicit
`% 2 ^ 32`.
-/

namespace SoftRF

/-! ## Machine arithmetic -/

/-- Number of values of a 32-bit `unsigned long` / `uint32_t`. -/
def ULONG_MOD : Nat := 2 ^ 32

/-- Subtraction of two `unsigned long` values, wrapping modulo `2 ^ 32`. -/
def usub (a b : Nat) : Nat := (a % ULONG_MOD + ULONG_MOD - b % ULONG_MOD) % ULONG_MOD

/-! ## Uptime tracker (`Time_loop`) -/

/-- The `UpTime_t` record of `Time.h`: four unsigned fields. -/
structure UpTime_t where
  days : Nat
  hours : Nat
  minutes : Nat
  seconds : Nat
deriving DecidableEq, Repr

/-- Global state touched by `Time_loop`: `UpTime`, the static `UpTime_Marker`, and
the number of `SoC->reset()` requests recorded so far (the reset collaborator is
a recorded request that returns). -/
structure TrackerState where
  UpTime : UpTime_t
  UpTime_Marker : Nat
  resetRequests : Nat
deriving DecidableEq, Repr

/-- Initial values: `UpTime = {0, 0, 0, 0}`, `UpTime_Marker = 0`, no reset requested. -/
def TrackerState.init : TrackerState :=
  { UpTime := { days := 0, hours := 0, minutes := 0, seconds := 0 }
    UpTime_Marker := 0
    resetRequests := 0 }

/-- Assignment to a field of `UpTime_t`. The field type is declared in `Time.h`, which
is not part of the sources at hand, so its width in bits is a parameter: the value
is truncated to `fieldBits` bits as an unsigned store does. The theorems ask for
`6 ≤ fieldBits`, which every unsigned integer type of C meets (at least 8 bits). -/
def storeField (fieldBits : Nat) (v : Nat) : Nat := v % 2 ^ fieldBits

/-- The body of the `if` in `Time_loop`, lines 167-174: the decomposition of a
millisecond reading as it is stored in `UpTime`. -/
def decompose (fieldBits : Nat) (ms_since_boot : Nat) : UpTime_t :=
  let sec := (ms_since_boot / 1000) % ULONG_MOD
  let min := (sec / 60) % ULONG_MOD
  let hr := (min / 60) % ULONG_MOD
  { days := storeField fieldBits (hr / 24)
    hours := storeField fieldBits (hr % 24)
    minutes := storeField fieldBits (min % 60)
    seconds := storeField fieldBits (sec % 60) }

/-- The guard of `Time_loop`, line 165: `ms_since_boot - UpTime_Marker > 1000`
in `unsigned long` arithmetic. -/
def recomputes (millis : Nat) (st : TrackerState) : Bool :=
  decide (usub (millis % ULONG_MOD) st.UpTime_Marker > 1000)

/-- One call of `Time_loop()` with `millis()` returning `millis`.
`TAKE_CARE_OF_MILLIS_ROLLOVER` tells whether that preprocessor symbol is defined. -/
def Time_loop (fieldBits : Nat) (TAKE_CARE_OF_MILLIS_ROLLOVER : Bool) (millis : Nat)
    (st : TrackerState) : TrackerState :=
  let ms_since_boot := millis % ULONG_MOD
  if usub ms_since_boot st.UpTime_Marker > 1000 then
    let UpTime := decompose fieldBits ms_since_boot
    let resetRequests :=
      if TAKE_CARE_OF_MILLIS_ROLLOVER && decide (UpTime.days > 46) then
        st.resetRequests + 1
      else
        st.resetRequests
    { UpTime := UpTime, UpTime_Marker := ms_since_boot, resetRequests := resetRequests }
  else
    st

/-- Successive calls of `Time_loop()`, one per millisecond reading, oldest first. -/
def runTicks (fieldBits : Nat) (TAKE_CARE_OF_MILLIS_ROLLOVER : Bool) :
    List Nat → TrackerState → TrackerState
  | [], st => st
  | ms :: rest, st =>
    runTicks fieldBits TAKE_CARE_OF_MILLIS_ROLLOVER rest
      (Time_loop fieldBits TAKE_CARE_OF_MILLIS_ROLLOVER ms st)

/-- The decomposition as the specification words it: floor divisions of the
millisecond reading, no machine truncation. -/
def specDecomposition (ms : Nat) : UpTime_t :=
  { days := ms / 1000 / 60 / 60 / 24
    hours := (ms / 1000 / 60 / 60) % 24
    minutes := (ms / 1000 / 60) % 60
    seconds := (ms / 1000) % 60 }

/-! ## NTP client (`Time_setup`) -/

/-- `unsigned int localPort = 2390;` -/
def localPort : Nat := 2390

/-- `const String ntpServerName_suffix = ".pool.ntp.org";` -/
def ntpServerName_suffix : String := ".pool.ntp.org"

/-- `const int NTP_PACKET_SIZE = 48;` -/
def NTP_PACKET_SIZE : Nat := 48

/-- Calls made by `Time_setup` on its collaborators, in program order.
`udpSend ip port data` stands for the triple `beginPacket(ip, port)`,
`write(data, len)`, `endPacket()`; `print` and `println` are `Serial` output. -/
inductive Event where
  | print (text : String)
  | println (text : String)
  | printlnIP (ip : Nat)
  | udpBegin (port : Nat)
  | hostByName (name : String)
  | udpSend (ip : Nat) (port : Nat) (data : List Nat)
  | delay (ms : Nat)
  | parsePacket (cb : Int)
  | udpRead (len : Nat)
  | udpStop
  | setTime (t : Nat)
deriving DecidableEq, Repr

/-- Answers of the collaborators during one call of `Time_setup`.
* `modeIsAP`: whether `WiFi.getMode() == WIFI_AP`;
* `hostByName name ip`: the content of `timeServerIP` after
  `WiFi.hostByName(name, timeServerIP)` when it held `ip` before;
* `parsePacket attempt`: what `NTP_udp.parsePacket()` returns on that attempt (1..4);
* `datagram attempt`: the bytes of the datagram `NTP_udp.read` draws from. -/
structure Env where
  modeIsAP : Bool
  hostByName : String → Nat → Nat
  parsePacket : Nat → Int
  datagram : Nat → List Nat

/-- Globals of the module (`timeServerIP`, `NTPPacketBuffer`), the process clock that
`setTime` writes, and the trace of collaborator calls. -/
structure SyncState where
  timeServerIP : Nat
  NTPPacketBuffer : List Nat
  clock : Nat
  trace : List Event
deriving DecidableEq, Repr

/-- State at entry of `Time_setup`, with an empty trace. -/
def SyncState.start (timeServerIP : Nat) (NTPPacketBuffer : List Nat) (clock : Nat) :
    SyncState :=
  { timeServerIP := timeServerIP, NTPPacketBuffer := NTPPacketBuffer, clock := clock,
    trace := [] }

/-- Append collaborator calls to the trace. -/
def SyncState.emit (st : SyncState) (events : List Event) : SyncState :=
  { st with trace := st.trace ++ events }

/-- `memset(buf, v, n)` on a byte buffer. -/
def memset (buf : List Nat) (v n : Nat) : List Nat :=
  List.replicate n (v % 256) ++ buf.drop n

/-- `NTP_udp.read(buf, len)`: the first `min len (size of the datagram)` bytes of the
buffer are overwritten with the datagram, the rest of the buffer is left as it was. -/
def udpRead (buf datagram : List Nat) (len : Nat) : List Nat :=
  datagram.take (min len datagram.length) ++ buf.drop (min len datagram.length)

/-- Arduino `word(h, l)`: `(h << 8) | l` on two bytes, a 16-bit value. -/
def word (h l : Nat) : Nat := (((h % 256) <<< 8) ||| (l % 256)) % 65536

/-- Lines 73-84: the request is built in the shared packet buffer. -/
def buildRequest (buf : List Nat) : List Nat :=
  let buf := memset buf 0 NTP_PACKET_SIZE
  let buf := buf.set 0 0b11100011
  let buf := buf.set 1 0
  let buf := buf.set 2 6
  let buf := buf.set 3 0xEC
  let buf := buf.set 12 49
  let buf := buf.set 13 0x4E
  let buf := buf.set 14 49
  buf.set 15 52

/-- Lines 62-95: one attempt up to and including `parsePacket()`. Returns the state and
the value assigned to `cb`. -/
def sendRequest (env : Env) (attempt : Nat) (st : SyncState) : SyncState × Int :=
  let ntpServerName := toString (attempt - 1) ++ ntpServerName_suffix
  let timeServerIP := env.hostByName ntpServerName st.timeServerIP
  let buf := buildRequest st.NTPPacketBuffer
  let cb := env.parsePacket attempt
  ({ st with
      timeServerIP := timeServerIP
      NTPPacketBuffer := buf
      trace := st.trace ++
        [Event.hostByName ntpServerName,
         Event.print "#", Event.print (toString attempt),
         Event.print " NTP server\x27s IP address: ", Event.printlnIP timeServerIP,
         Event.println "sending NTP packet...",
         Event.udpSend timeServerIP 123 (buf.take NTP_PACKET_SIZE),
         Event.delay 2000,
         Event.parsePacket cb] }, cb)

/-- Lines 59-108: the `for (attempt = 1; attempt <= 4; attempt++)` loop over the attempts
still to make; `continue` when `cb` is zero, `break` after reading the reply otherwise.
The second argument is the current value of `cb`. -/
def attemptLoop (env : Env) : List Nat → Int → SyncState → SyncState × Int
  | [], cb, st => (st, cb)
  | attempt :: rest, _, st =>
    let r := sendRequest env attempt st
    if r.2 = 0 then
      attemptLoop env rest r.2
        (r.1.emit [Event.print "No response on request #", Event.println (toString attempt)])
    else
      ({ r.1 with
          NTPPacketBuffer :=
            udpRead r.1.NTPPacketBuffer (env.datagram attempt) NTP_PACKET_SIZE
          trace := r.1.trace ++
            [Event.print "Reply packet received, length=", Event.println (toString r.2),
             Event.udpRead NTP_PACKET_SIZE] }, r.2)

/-- Lines 120-124: the seconds-since-1900 field read from bytes 40..43 of the buffer. -/
def secsSince1900 (buf : List Nat) : Nat :=
  let highWord := word (buf.getD 40 0) (buf.getD 41 0)
  let lowWord := word (buf.getD 42 0) (buf.getD 43 0)
  ((highWord <<< 16) % ULONG_MOD) ||| lowWord

/-- `const unsigned long seventyYears = 2208988800UL;` -/
def seventyYears : Nat := 2208988800

/-- Lines 131-133: `epoch = secsSince1900 - seventyYears` in `unsigned long`. -/
def epochOf (buf : List Nat) : Nat := usub (secsSince1900 buf) seventyYears

/-- Lines 125-153 after a reply was read: prints, and `setTime((time_t) epoch)`. The
recorded `setTime` argument and the clock are the `unsigned long` value `epoch`. -/
def applyReply (st : SyncState) : SyncState :=
  let secs := secsSince1900 st.NTPPacketBuffer
  let epoch := epochOf st.NTPPacketBuffer
  { st with
      clock := epoch
      trace := st.trace ++
        [Event.print "Seconds since Jan 1 1900 = ", Event.println (toString secs),
         Event.print "Unix time = ", Event.println (toString epoch),
         Event.setTime epoch,
         Event.print "The UTC time is ", Event.print (toString ((epoch % 86400) / 3600)),
         Event.print ":"] ++
        (if (epoch % 3600) / 60 < 10 then [Event.print "0"] else []) ++
        [Event.print (toString ((epoch % 3600) / 60)), Event.print ":"] ++
        (if epoch % 60 < 10 then [Event.print "0"] else []) ++
        [Event.println (toString (epoch % 60))] }

/-- The function `Time_setup()` of the WiFi build (lines 41-154). -/
def Time_setup (env : Env) (st : SyncState) : SyncState :=
  if env.modeIsAP then
    st
  else
    let st := st.emit
      [Event.println "Starting NTP UDP", Event.udpBegin localPort,
       Event.print "Local port: ", Event.println (toString localPort)]
    let r := attemptLoop env [1, 2, 3, 4] 0 st
    let st := r.1.emit [Event.udpStop]
    if r.2 = 0 then
      st.emit [Event.println "WARNING! Unable to sync time by NTP."]
    else
      applyReply st

/-- Host names handed to `WiFi.hostByName`, in call order. -/
def resolvedNames (trace : List Event) : List String :=
  trace.filterMap fun e => match e with
    | Event.hostByName name => some name
    | _ => none

/-- Datagrams sent, in call order: destination port and payload. -/
def sentRequests (trace : List Event) : List (Nat × List Nat) :=
  trace.filterMap fun e => match e with
    | Event.udpSend _ port data => some (port, data)
    | _ => none

/-- Arguments of the `setTime` calls, in call order. -/
def clockSets (trace : List Event) : List Nat :=
  trace.filterMap fun e => match e with
    | Event.setTime t => some t
    | _ => none

/-- Whether the failure warning was printed. -/
def warned (trace : List Event) : Bool :=
  trace.contains (Event.println "WARNING! Unable to sync time by NTP.")

/-- The host name built on line 62 for a 1-based `attempt`. -/
def ntpServerNameOf (attempt : Nat) : String :=
  toString (attempt - 1) ++ ntpServerName_suffix

/-- The state in which the loop goes on after an unanswered attempt (the `continue`
branch of `attemptLoop`). -/
def afterSilence (env : Env) (attempt : Nat) (st : SyncState) : SyncState :=
  (sendRequest env attempt st).1.emit
    [Event.print "No response on request #", Event.println (toString attempt)]

/-- The request as it leaves `buildRequest`: 48 bytes. -/
def ntpRequest : List Nat :=
  [0b11100011, 0, 6, 0xEC, 0, 0, 0, 0, 0, 0, 0, 0, 49, 0x4E, 49, 52,
   0, 0, 0, 0, 0, 0, 0, 0, 0, 0, 0, 0, 0, 0, 0, 0,
   0, 0, 0, 0, 0, 0, 0, 0, 0, 0, 0, 0, 0, 0, 0, 0]

/-- The four pool host names, in attempt order. -/
def poolNames : List String :=
  ["0.pool.ntp.org", "1.pool.ntp.org", "2.pool.ntp.org", "3.pool.ntp.org"]

/-- A 48-byte reply whose transmit-timestamp seconds field (bytes 40..43) holds
`2208988800 + 1700000000 = 3908988800 = 0xE8FE6F80`. -/
def sampleReply : List Nat :=
  [0x24, 2, 6, 0xEC, 0, 0, 0, 0, 0, 0, 0, 0, 49, 0x4E, 49, 52,
   1, 2, 3, 4, 5, 6, 7, 8, 9, 10, 11, 12, 13, 14, 15, 16,
   17, 18, 19, 20, 21, 22, 23, 24, 232, 254, 111, 128, 0, 0, 0, 0]

/-- An environment in which no attempt is answered. -/
def silentEnv : Env :=
  { modeIsAP := false, hostByName := fun _ ip => ip, parsePacket := fun _ => 0,
    datagram := fun _ => [] }

/-- An environment in which attempt `k` is the first to be answered, with `reply`
reported at length `cb`. -/
def answeringEnv (k : Nat) (cb : Int) (reply : List Nat) : Env :=
  { modeIsAP := false, hostByName := fun _ ip => ip,
    parsePacket := fun attempt => if attempt = k then cb else 0,
    datagram := fun _ => reply }

/-! ### Arithmetic facts used by the tracker theorems -/

theorem usub_of_le {a b : Nat} (hba : b ≤ a) (ha : a < 2 ^ 32) : usub a b = a - b := by
  unfold usub ULONG_MOD
  omega

theorem storeField_of_lt {fieldBits v : Nat} (hbits : 6 ≤ fieldBits) (hv : v < 64) :
    storeField fieldBits v = v := by
  unfold storeField
  apply Nat.mod_eq_of_lt
  have hpow : 2 ^ 6 ≤ 2 ^ fieldBits := Nat.pow_le_pow_right (by decide) hbits
  omega

theorem decompose_eq_spec {fieldBits ms : Nat} (hbits : 6 ≤ fieldBits) (hms : ms < 2 ^ 32) :
    decompose fieldBits ms = specDecomposition ms := by
  have hsec : (ms / 1000) % ULONG_MOD = ms / 1000 := by
    unfold ULONG_MOD; omega
  have hmin : (ms / 1000 / 60) % ULONG_MOD = ms / 1000 / 60 := by
    unfold ULONG_MOD; omega
  have hhr : (ms / 1000 / 60 / 60) % ULONG_MOD = ms / 1000 / 60 / 60 := by
    unfold ULONG_MOD; omega
  simp only [decompose, specDecomposition, hsec, hmin, hhr]
  rw [storeField_of_lt hbits (by omega), storeField_of_lt hbits (by omega),
    storeField_of_lt hbits (by omega), storeField_of_lt hbits (by omega)]

theorem Time_loop_of_recomputes {fieldBits : Nat} {roll : Bool} {ms : Nat} {st : TrackerState}
    (hrec : recomputes ms st = true) :
    Time_loop fieldBits roll ms st =
      { UpTime := decompose fieldBits (ms % ULONG_MOD)
        UpTime_Marker := ms % ULONG_MOD
        resetRequests :=
          if roll && decide ((decompose fieldBits (ms % ULONG_MOD)).days > 46) then
            st.resetRequests + 1
          else st.resetRequests } := by
  have h : usub (ms % ULONG_MOD) st.UpTime_Marker > 1000 := by
    simpa [recomputes] using hrec
  simp [Time_loop, h]

theorem Time_loop_of_not_recomputes {fieldBits : Nat} {roll : Bool} {ms : Nat}
    {st : TrackerState} (hrec : recomputes ms st = false) :
    Time_loop fieldBits roll ms st = st := by
  have h : ¬ usub (ms % ULONG_MOD) st.UpTime_Marker > 1000 := by
    simpa [recomputes] using hrec
  simp [Time_loop, h]

theorem mod_ulong_of_lt {ms : Nat} (hms : ms < 2 ^ 32) : ms % ULONG_MOD = ms := by
  unfold ULONG_MOD; omega

theorem days_gt_iff (ms : Nat) : (specDecomposition ms).days > 46 ↔ 4060800000 ≤ ms := by
  simp only [specDecomposition]
  omega

/-- One tick keeps the cached fields equal to the decomposition of the marker, and
leaves the marker at most 1000 ms behind the reading. -/
theorem Time_loop_marker_step {fieldBits : Nat} {roll : Bool} {m : Nat} {st : TrackerState}
    (hbits : 6 ≤ fieldBits) (hm : m < 2 ^ 32) (hmark : st.UpTime_Marker ≤ m)
    (hinv : st.UpTime = specDecomposition st.UpTime_Marker) :
    (Time_loop fieldBits roll m st).UpTime =
        specDecomposition (Time_loop fieldBits roll m st).UpTime_Marker ∧
      (Time_loop fieldBits roll m st).UpTime_Marker ≤ m ∧
      m - (Time_loop fieldBits roll m st).UpTime_Marker ≤ 1000 ∧
      (recomputes m st = true →
        (Time_loop fieldBits roll m st).UpTime = specDecomposition m) := by
  cases hr : recomputes m st with
  | false =>
    rw [Time_loop_of_not_recomputes hr]
    refine ⟨hinv, hmark, ?_, fun h => by cases h⟩
    have h : ¬ usub (m % ULONG_MOD) st.UpTime_Marker > 1000 := by
      simpa [recomputes] using hr
    rw [mod_ulong_of_lt hm, usub_of_le hmark hm] at h
    omega
  | true =>
    rw [Time_loop_of_recomputes hr, mod_ulong_of_lt hm]
    refine ⟨decompose_eq_spec hbits hm, le_refl m, by simp, fun _ => ?_⟩
    exact decompose_eq_spec hbits hm

theorem runTicks_marker {fieldBits : Nat} {roll : Bool} (hbits : 6 ≤ fieldBits) :
    ∀ (pre : List Nat) (m : Nat) (st : TrackerState),
      List.Pairwise (fun a b => a ≤ b) (pre ++ [m]) → m < 2 ^ 32 →
      (∀ x ∈ pre ++ [m], st.UpTime_Marker ≤ x) →
      st.UpTime = specDecomposition st.UpTime_Marker →
      (runTicks fieldBits roll (pre ++ [m]) st).UpTime =
          specDecomposition (runTicks fieldBits roll (pre ++ [m]) st).UpTime_Marker ∧
        (runTicks fieldBits roll (pre ++ [m]) st).UpTime_Marker ≤ m ∧
        m - (runTicks fieldBits roll (pre ++ [m]) st).UpTime_Marker ≤ 1000 ∧
        (recomputes m (runTicks fieldBits roll pre st) = true →
          (runTicks fieldBits roll (pre ++ [m]) st).UpTime = specDecomposition m) := by
  intro pre
  induction pre with
  | nil =>
    intro m st _ hm hlow hinv
    simp only [List.nil_append, runTicks]
    exact Time_loop_marker_step hbits hm (hlow m (by simp)) hinv
  | cons a rest ih =>
    intro m st hsorted hm hlow hinv
    have hsplit := List.pairwise_cons.mp hsorted
    have ham : a ≤ m := hsplit.1 m (by simp)
    have ha : a < 2 ^ 32 := by omega
    have hstep := @Time_loop_marker_step fieldBits roll a st hbits ha (hlow a (by simp)) hinv
    simp only [List.cons_append, runTicks]
    refine ih m (Time_loop fieldBits roll a st) hsplit.2 hm ?_ hstep.1
    intro x hx
    exact le_trans hstep.2.1 (hsplit.1 x hx)

/-! ### Facts about the request and the attempt loop -/

theorem buildRequest_eq (buf : List Nat) : buildRequest buf = ntpRequest ++ buf.drop 48 := by
  simp [buildRequest, memset, NTP_PACKET_SIZE, ntpRequest, List.replicate]

theorem take_ntpRequest_append (tail : List Nat) : (ntpRequest ++ tail).take 48 = ntpRequest := by
  simp [ntpRequest]

theorem drop_ntpRequest_append (tail : List Nat) : (ntpRequest ++ tail).drop 48 = tail := by
  simp [ntpRequest]

theorem sentRequests_append (t u : List Event) :
    sentRequests (t ++ u) = sentRequests t ++ sentRequests u := by
  simp [sentRequests]

theorem resolvedNames_append (t u : List Event) :
    resolvedNames (t ++ u) = resolvedNames t ++ resolvedNames u := by
  simp [resolvedNames]

theorem clockSets_append (t u : List Event) :
    clockSets (t ++ u) = clockSets t ++ clockSets u := by
  simp [clockSets]

theorem afterSilence_facts (env : Env) (attempt : Nat) (st : SyncState) :
    (afterSilence env attempt st).clock = st.clock ∧
      (afterSilence env attempt st).NTPPacketBuffer = ntpRequest ++ st.NTPPacketBuffer.drop 48 ∧
      sentRequests (afterSilence env attempt st).trace =
        sentRequests st.trace ++ [(123, ntpRequest)] ∧
      resolvedNames (afterSilence env attempt st).trace =
        resolvedNames st.trace ++ [ntpServerNameOf attempt] ∧
      clockSets (afterSilence env attempt st).trace = clockSets st.trace := by
  refine ⟨rfl, ?_, ?_, ?_, ?_⟩
  · simp [afterSilence, sendRequest, SyncState.emit, buildRequest_eq]
  · simp [afterSilence, sendRequest, SyncState.emit, buildRequest_eq, sentRequests_append,
      take_ntpRequest_append, NTP_PACKET_SIZE]
    simp [sentRequests]
  · simp [afterSilence, sendRequest, SyncState.emit, resolvedNames_append]
    simp [resolvedNames, ntpServerNameOf]
  · simp [afterSilence, sendRequest, SyncState.emit, clockSets_append]
    simp [clockSets]

theorem attemptLoop_silent_step (env : Env) (attempt : Nat) (rest : List Nat) (cb : Int)
    (st : SyncState) (h : env.parsePacket attempt = 0) :
    attemptLoop env (attempt :: rest) cb st =
      attemptLoop env rest 0 (afterSilence env attempt st) := by
  have h2 : (sendRequest env attempt st).2 = 0 := h
  simp only [attemptLoop, h2, if_true, afterSilence]

theorem attemptLoop_answer_step (env : Env) (attempt : Nat) (rest : List Nat) (cb : Int)
    (st : SyncState) (h : env.parsePacket attempt ≠ 0) :
    (attemptLoop env (attempt :: rest) cb st).2 = env.parsePacket attempt ∧
      (attemptLoop env (attempt :: rest) cb st).1.clock = st.clock ∧
      (attemptLoop env (attempt :: rest) cb st).1.NTPPacketBuffer =
        udpRead (ntpRequest ++ st.NTPPacketBuffer.drop 48) (env.datagram attempt) 48 ∧
      sentRequests (attemptLoop env (attempt :: rest) cb st).1.trace =
        sentRequests st.trace ++ [(123, ntpRequest)] ∧
      resolvedNames (attemptLoop env (attempt :: rest) cb st).1.trace =
        resolvedNames st.trace ++ [ntpServerNameOf attempt] ∧
      clockSets (attemptLoop env (attempt :: rest) cb st).1.trace = clockSets st.trace := by
  have h2 : ¬ (sendRequest env attempt st).2 = 0 := h
  simp only [attemptLoop, h2, if_false]
  refine ⟨rfl, rfl, ?_, ?_, ?_, ?_⟩
  · simp [sendRequest, buildRequest_eq, NTP_PACKET_SIZE]
  · simp [sendRequest, buildRequest_eq, sentRequests_append, take_ntpRequest_append,
      NTP_PACKET_SIZE]
    simp [sentRequests]
  · simp [sendRequest, resolvedNames_append]
    simp [resolvedNames, ntpServerNameOf]
  · simp [sendRequest, clockSets_append]
    simp [clockSets]

/-- The loop when the attempts in `pre` get no reply and attempt `a` gets one. -/
theorem attemptLoop_answered (env : Env) (a : Nat) (post : List Nat) :
    ∀ (pre : List Nat) (cb : Int) (st : SyncState),
      (∀ x ∈ pre, env.parsePacket x = 0) → env.parsePacket a ≠ 0 →
      (attemptLoop env (pre ++ a :: post) cb st).2 = env.parsePacket a ∧
        (attemptLoop env (pre ++ a :: post) cb st).1.clock = st.clock ∧
        (attemptLoop env (pre ++ a :: post) cb st).1.NTPPacketBuffer =
          udpRead (ntpRequest ++ st.NTPPacketBuffer.drop 48) (env.datagram a) 48 ∧
        sentRequests (attemptLoop env (pre ++ a :: post) cb st).1.trace =
          sentRequests st.trace ++ List.replicate (pre.length + 1) (123, ntpRequest) ∧
        resolvedNames (attemptLoop env (pre ++ a :: post) cb st).1.trace =
          resolvedNames st.trace ++ (pre ++ [a]).map ntpServerNameOf ∧
        clockSets (attemptLoop env (pre ++ a :: post) cb st).1.trace = clockSets st.trace := by
  intro pre
  induction pre with
  | nil =>
    intro cb st _ ha
    simpa using attemptLoop_answer_step env a post cb st ha
  | cons x pre ih =>
    intro cb st hpre ha
    have hx : env.parsePacket x = 0 := hpre x (List.mem_cons_self x pre)
    have hrest : ∀ y ∈ pre, env.parsePacket y = 0 := fun y hy =>
      hpre y (List.mem_cons_of_mem x hy)
    obtain ⟨f1, f2, f3, f4, f5⟩ := afterSilence_facts env x st
    obtain ⟨g1, g2, g3, g4, g5, g6⟩ := ih 0 (afterSilence env x st) hrest ha
    rw [List.cons_append, attemptLoop_silent_step env x _ cb st hx]
    refine ⟨g1, by rw [g2, f1], ?_, ?_, ?_, by rw [g6, f5]⟩
    · rw [g3, f2, drop_ntpRequest_append]
    · rw [g4, f3, List.append_assoc]
      rfl
    · rw [g5, f4, List.append_assoc]
      rfl

/-- The loop when none of the attempts gets a reply. -/
theorem attemptLoop_silent (env : Env) :
    ∀ (attempts : List Nat) (st : SyncState),
      (∀ x ∈ attempts, env.parsePacket x = 0) →
      (attemptLoop env attempts 0 st).2 = 0 ∧
        (attemptLoop env attempts 0 st).1.clock = st.clock ∧
        sentRequests (attemptLoop env attempts 0 st).1.trace =
          sentRequests st.trace ++ List.replicate attempts.length (123, ntpRequest) ∧
        resolvedNames (attemptLoop env attempts 0 st).1.trace =
          resolvedNames st.trace ++ attempts.map ntpServerNameOf ∧
        clockSets (attemptLoop env attempts 0 st).1.trace = clockSets st.trace := by
  intro attempts
  induction attempts with
  | nil =>
    intro st _
    simp [attemptLoop]
  | cons x rest ih =>
    intro st hall
    have hx : env.parsePacket x = 0 := hall x (List.mem_cons_self x rest)
    have hrest : ∀ y ∈ rest, env.parsePacket y = 0 := fun y hy =>
      hall y (List.mem_cons_of_mem x hy)
    obtain ⟨f1, _, f3, f4, f5⟩ := afterSilence_facts env x st
    obtain ⟨g1, g2, g4, g5, g6⟩ := ih (afterSilence env x st) hrest
    rw [attemptLoop_silent_step env x _ 0 st hx]
    refine ⟨g1, by rw [g2, f1], ?_, ?_, by rw [g6, f5]⟩
    · rw [g4, f3, List.append_assoc]
      rfl
    · rw [g5, f4, List.append_assoc]
      rfl

/-- Either no attempt is answered, or there is a first answered attempt. -/
theorem first_answer_cases (env : Env) :
    (∀ x ∈ [1, 2, 3, 4], env.parsePacket x = 0) ∨
      ∃ (pre : List Nat) (a : Nat) (post : List Nat),
        [1, 2, 3, 4] = pre ++ a :: post ∧ (∀ x ∈ pre, env.parsePacket x = 0) ∧
          env.parsePacket a ≠ 0 := by
  by_cases h1 : env.parsePacket 1 = 0
  · by_cases h2 : env.parsePacket 2 = 0
    · by_cases h3 : env.parsePacket 3 = 0
      · by_cases h4 : env.parsePacket 4 = 0
        · left
          intro x hx
          simp at hx
          rcases hx with rfl | rfl | rfl | rfl <;> assumption
        · exact Or.inr ⟨[1, 2, 3], 4, [], rfl, by simp [h1, h2, h3], h4⟩
      · exact Or.inr ⟨[1, 2], 3, [4], rfl, by simp [h1, h2], h3⟩
    · exact Or.inr ⟨[1], 2, [3, 4], rfl, by simp [h1], h2⟩
  · exact Or.inr ⟨[], 1, [2, 3, 4], rfl, by simp, h1⟩

theorem applyReply_facts (st : SyncState) :
    (applyReply st).clock = epochOf st.NTPPacketBuffer ∧
      (applyReply st).NTPPacketBuffer = st.NTPPacketBuffer ∧
      sentRequests (applyReply st).trace = sentRequests st.trace ∧
      resolvedNames (applyReply st).trace = resolvedNames st.trace ∧
      clockSets (applyReply st).trace = clockSets st.trace ++ [epochOf st.NTPPacketBuffer] := by
  obtain ⟨ip, buf, clock, trace⟩ := st
  refine ⟨by simp only [applyReply], by simp only [applyReply], ?_, ?_, ?_⟩
  · simp only [applyReply, sentRequests_append]
    split_ifs <;> simp [sentRequests]
  · simp only [applyReply, resolvedNames_append]
    split_ifs <;> simp [resolvedNames]
  · simp only [applyReply, clockSets_append]
    split_ifs <;> simp [clockSets]

/-- The whole of `Time_setup` in client mode when attempt `a` is the first answered. -/
theorem Time_setup_answered (env : Env) (ip : Nat) (buf : List Nat) (clock : Nat)
    (pre : List Nat) (a : Nat) (post : List Nat) (hmode : env.modeIsAP = false)
    (hsplit : [1, 2, 3, 4] = pre ++ a :: post) (hpre : ∀ x ∈ pre, env.parsePacket x = 0)
    (ha : env.parsePacket a ≠ 0) :
    (Time_setup env (SyncState.start ip buf clock)).NTPPacketBuffer =
        udpRead (ntpRequest ++ buf.drop 48) (env.datagram a) 48 ∧
      (Time_setup env (SyncState.start ip buf clock)).clock =
        epochOf (udpRead (ntpRequest ++ buf.drop 48) (env.datagram a) 48) ∧
      sentRequests (Time_setup env (SyncState.start ip buf clock)).trace =
        List.replicate (pre.length + 1) (123, ntpRequest) ∧
      resolvedNames (Time_setup env (SyncState.start ip buf clock)).trace =
        (pre ++ [a]).map ntpServerNameOf ∧
      clockSets (Time_setup env (SyncState.start ip buf clock)).trace =
        [epochOf (udpRead (ntpRequest ++ buf.drop 48) (env.datagram a) 48)] := by
  obtain ⟨g1, _, g3, g4, g5, g6⟩ := attemptLoop_answered env a post pre 0
    ((SyncState.start ip buf clock).emit
      [Event.println "Starting NTP UDP", Event.udpBegin localPort,
       Event.print "Local port: ", Event.println (toString localPort)]) hpre ha
  rw [← hsplit] at g1 g3 g4 g5 g6
  have hcb : ¬ (attemptLoop env [1, 2, 3, 4] 0
      ((SyncState.start ip buf clock).emit
        [Event.println "Starting NTP UDP", Event.udpBegin localPort,
         Event.print "Local port: ", Event.println (toString localPort)])).2 = 0 := by
    rw [g1]; exact ha
  simp only [Time_setup, hmode, hcb, if_false, Bool.false_eq_true]
  obtain ⟨a1, a2, a3, a4, a5⟩ := applyReply_facts
    ((attemptLoop env [1, 2, 3, 4] 0
      ((SyncState.start ip buf clock).emit
        [Event.println "Starting NTP UDP", Event.udpBegin localPort,
         Event.print "Local port: ", Event.println (toString localPort)])).1.emit
      [Event.udpStop])
  simp only [SyncState.emit] at a1 a2 a3 a4 a5 g3 g4 g5 g6 ⊢
  rw [a1, a2, a3, a4, a5, g3, sentRequests_append, resolvedNames_append, clockSets_append,
    g4, g5, g6]
  simp [SyncState.start, sentRequests, resolvedNames, clockSets]

/-- The whole of `Time_setup` in client mode when no attempt is answered. -/
theorem Time_setup_silent (env : Env) (ip : Nat) (buf : List Nat) (clock : Nat)
    (hmode : env.modeIsAP = false) (hall : ∀ x ∈ [1, 2, 3, 4], env.parsePacket x = 0) :
    (Time_setup env (SyncState.start ip buf clock)).clock = clock ∧
      sentRequests (Time_setup env (SyncState.start ip buf clock)).trace =
        List.replicate 4 (123, ntpRequest) ∧
      resolvedNames (Time_setup env (SyncState.start ip buf clock)).trace =
        [1, 2, 3, 4].map ntpServerNameOf ∧
      clockSets (Time_setup env (SyncState.start ip buf clock)).trace = [] ∧
      (Time_setup env (SyncState.start ip buf clock)).trace.getLast? =
        some (Event.println "WARNING! Unable to sync time by NTP.") := by
  obtain ⟨g1, g2, g4, g5, g6⟩ := attemptLoop_silent env [1, 2, 3, 4]
    ((SyncState.start ip buf clock).emit
      [Event.println "Starting NTP UDP", Event.udpBegin localPort,
       Event.print "Local port: ", Event.println (toString localPort)]) hall
  simp only [Time_setup, hmode, g1, if_true, Bool.false_eq_true, if_false]
  simp only [SyncState.emit] at g2 g4 g5 g6 ⊢
  refine ⟨by rw [g2]; rfl, ?_, ?_, ?_, ?_⟩
  · rw [sentRequests_append, sentRequests_append, g4]
    simp [SyncState.start, sentRequests]
  · rw [resolvedNames_append, resolvedNames_append, g5]
    simp [SyncState.start, resolvedNames]
  · rw [clockSets_append, clockSets_append, g6]
    simp [SyncState.start, clockSets]
  · simp

theorem attempts_split (k : Nat) (hk : k < 4) :
    [1, 2, 3, 4] = List.range' 1 k ++ (k + 1) :: List.range' (k + 2) (3 - k) := by
  interval_cases k <;> rfl

theorem silent_before (env : Env) (k : Nat)
    (hpre : ∀ j < k, env.parsePacket (j + 1) = 0) :
    ∀ x ∈ List.range' 1 k, env.parsePacket x = 0 := by
  intro x hx
  rw [List.mem_range'_1] at hx
  have h := hpre (x - 1) (by omega)
  rwa [Nat.sub_add_cancel hx.1] at h

theorem silent_all (env : Env) (hall : ∀ j < 4, env.parsePacket (j + 1) = 0) :
    ∀ x ∈ [1, 2, 3, 4], env.parsePacket x = 0 := by
  intro x hx
  simp at hx
  rcases hx with rfl | rfl | rfl | rfl
  · exact hall 0 (by decide)
  · exact hall 1 (by decide)
  · exact hall 2 (by decide)
  · exact hall 3 (by decide)

theorem word_eq {h l : Nat} (hh : h < 256) (hl : l < 256) : word h l = h * 256 + l := by
  unfold word
  rw [Nat.mod_eq_of_lt hh, Nat.mod_eq_of_lt hl, Nat.shiftLeft_eq, Nat.mul_comm h (2 ^ 8),
    ← Nat.mul_add_lt_is_or (by simpa using hl) h]
  omega

theorem secsSince1900_eq (buf : List Nat) (h40 : buf.getD 40 0 < 256)
    (h41 : buf.getD 41 0 < 256) (h42 : buf.getD 42 0 < 256) (h43 : buf.getD 43 0 < 256) :
    secsSince1900 buf =
      buf.getD 40 0 * 2 ^ 24 + buf.getD 41 0 * 2 ^ 16 + buf.getD 42 0 * 2 ^ 8
        + buf.getD 43 0 := by
  unfold secsSince1900
  simp only [word_eq h40 h41, word_eq h42 h43, ULONG_MOD]
  have hlow : buf.getD 42 0 * 256 + buf.getD 43 0 < 2 ^ 16 := by omega
  rw [Nat.shiftLeft_eq, Nat.mod_eq_of_lt (by omega),
    Nat.mul_comm _ (2 ^ 16), ← Nat.mul_add_lt_is_or hlow]
  omega

/-- A read of a datagram shorter than the buffer leaves the bytes past its end alone. -/
theorem udpRead_getD_beyond (req datagram : List Nat) (i : Nat)
    (hshort : datagram.length ≤ 48) (hi : datagram.length ≤ i) :
    (udpRead req datagram 48).getD i 0 = req.getD i 0 := by
  unfold udpRead
  rw [Nat.min_eq_right hshort, List.take_of_length_le (le_refl _)]
  simp only [List.getD_eq_getElem?_getD]
  rw [List.getElem?_append_right hi, List.getElem?_drop, Nat.add_sub_cancel' hi]

theorem ntpRequest_getD_append (tail : List Nat) (i : Nat) (hi : i < 48) :
    (ntpRequest ++ tail).getD i 0 = ntpRequest.getD i 0 :=
  List.getD_append _ _ _ _ (by simpa [ntpRequest] using hi)

theorem poolNames_eq : [1, 2, 3, 4].map ntpServerNameOf = poolNames := by decide

/-- Whatever the environment answers, every datagram sent is the fixed request to port
123, and the hosts resolved are an initial segment of the pool names. -/
theorem Time_setup_requests (env : Env) (ip : Nat) (buf : List Nat) (clock : Nat) :
    (∃ n, sentRequests (Time_setup env (SyncState.start ip buf clock)).trace =
        List.replicate n (123, ntpRequest) ∧ (env.modeIsAP = false → 0 < n)) ∧
      ∃ rest, resolvedNames (Time_setup env (SyncState.start ip buf clock)).trace ++ rest =
        poolNames := by
  cases hmode : env.modeIsAP with
  | true =>
    have h : Time_setup env (SyncState.start ip buf clock) = SyncState.start ip buf clock := by
      simp [Time_setup, hmode]
    rw [h]
    exact ⟨⟨0, rfl, fun h => by cases h⟩, poolNames, rfl⟩
  | false =>
    rcases first_answer_cases env with hall | ⟨pre, a, post, hsplit, hpre, ha⟩
    · obtain ⟨_, f2, f3, _, _⟩ := Time_setup_silent env ip buf clock hmode hall
      exact ⟨⟨4, f2, fun _ => by decide⟩, [], by rw [f3, poolNames_eq]; rfl⟩
    · obtain ⟨_, _, f3, f4, _⟩ :=
        Time_setup_answered env ip buf clock pre a post hmode hsplit hpre ha
      refine ⟨⟨pre.length + 1, f3, fun _ => Nat.succ_pos _⟩, post.map ntpServerNameOf, ?_⟩
      rw [f4, ← List.map_append, List.append_assoc, List.singleton_append, ← hsplit,
        poolNames_eq]

/-! ### Theorems about `Time_loop` -/

/-- C2: whenever a tick with 32-bit reading `ms` recomputes, the stored fields are
`days = ms/1000/60/60/24`, `hours = (ms/1000/60/60) % 24`, `minutes = (ms/1000/60) % 60`,
`seconds = (ms/1000) % 60` (floor division); and a tick from the initial state with
`ms = 90,061,000` recomputes and yields days = 1, hours = 1, minutes = 1, seconds = 1. -/
theorem Time_loop_decomposition (fieldBits : Nat) (roll : Bool) (ms : Nat) (st : TrackerState)
    (hbits : 6 ≤ fieldBits) (hms : ms < 2 ^ 32) (hrec : recomputes ms st = true) :
    (Time_loop fieldBits roll ms st).UpTime =
        { days := ms / 1000 / 60 / 60 / 24
          hours := (ms / 1000 / 60 / 60) % 24
          minutes := (ms / 1000 / 60) % 60
          seconds := (ms / 1000) % 60 } ∧
      recomputes 90061000 TrackerState.init = true ∧
      (Time_loop fieldBits roll 90061000 TrackerState.init).UpTime =
        { days := 1, hours := 1, minutes := 1, seconds := 1 } := by
  refine ⟨?_, by decide, ?_⟩
  · rw [Time_loop_of_recomputes hrec, mod_ulong_of_lt hms]
    exact decompose_eq_spec hbits hms
  · have h0 : recomputes 90061000 TrackerState.init = true := by decide
    rw [Time_loop_of_recomputes h0, mod_ulong_of_lt (by norm_num)]
    simp only [decompose_eq_spec hbits (show 90061000 < 2 ^ 32 by norm_num)]
    decide

theorem Time_loop_decomposition_witness :
    (6 ≤ 8 ∧ 5000 < 2 ^ 32 ∧ recomputes 5000 TrackerState.init = true) ∧
      ((Time_loop 8 true 5000 TrackerState.init).UpTime =
          { days := 5000 / 1000 / 60 / 60 / 24
            hours := (5000 / 1000 / 60 / 60) % 24
            minutes := (5000 / 1000 / 60) % 60
            seconds := (5000 / 1000) % 60 } ∧
        recomputes 90061000 TrackerState.init = true ∧
        (Time_loop 8 true 90061000 TrackerState.init).UpTime =
          { days := 1, hours := 1, minutes := 1, seconds := 1 }) :=
  ⟨⟨by decide, by decide, by decide⟩,
    Time_loop_decomposition 8 true 5000 TrackerState.init (by decide) (by decide) (by decide)⟩

/-- C6, counterexample: the tick at 2000 ms recomputes (seconds = 2); the next tick comes
exactly 1000 ms later, at 3000 ms, and leaves the cached fields as they were, not at the
decomposition of 3000 ms (seconds = 3). -/
theorem Time_loop_rate_limit_counterexample :
    recomputes 2000 TrackerState.init = true ∧ 3000 - 2000 ≥ 1000 ∧
      (Time_loop 8 true 3000 (Time_loop 8 true 2000 TrackerState.init)).UpTime =
        (Time_loop 8 true 2000 TrackerState.init).UpTime ∧
      (Time_loop 8 true 3000 (Time_loop 8 true 2000 TrackerState.init)).UpTime ≠
        specDecomposition 3000 := by
  decide

/-- C6, amended: let `m0` be the reading of a tick that recomputed and `m1 ≥ m0` the
reading of the next tick. If `m1 - m0 ≤ 1000` (exactly 1000 included) the later tick
changes nothing (cached fields, marker and request count); if `m1 - m0 > 1000` it
recomputes the cached fields to the decomposition of `m1`. -/
theorem Time_loop_rate_limit (fieldBits : Nat) (roll : Bool) (st0 : TrackerState)
    (m0 m1 : Nat) (hbits : 6 ≤ fieldBits) (hm0 : m0 < 2 ^ 32)
    (hrec : recomputes m0 st0 = true) (hle : m0 ≤ m1) (hm1 : m1 < 2 ^ 32) :
    (Time_loop fieldBits roll m0 st0).UpTime_Marker = m0 ∧
      (m1 - m0 ≤ 1000 →
        Time_loop fieldBits roll m1 (Time_loop fieldBits roll m0 st0) =
          Time_loop fieldBits roll m0 st0) ∧
      (m1 - m0 > 1000 →
        (Time_loop fieldBits roll m1 (Time_loop fieldBits roll m0 st0)).UpTime =
          specDecomposition m1) := by
  have hmark : (Time_loop fieldBits roll m0 st0).UpTime_Marker = m0 := by
    rw [Time_loop_of_recomputes hrec, mod_ulong_of_lt hm0]
  have hsub : usub (m1 % ULONG_MOD) (Time_loop fieldBits roll m0 st0).UpTime_Marker
      = m1 - m0 := by
    rw [hmark, mod_ulong_of_lt hm1, usub_of_le hle hm1]
  refine ⟨hmark, ?_, ?_⟩
  · intro hnear
    apply Time_loop_of_not_recomputes
    simp only [recomputes, hsub, decide_eq_false_iff_not]
    omega
  · intro hfar
    have hrec1 : recomputes m1 (Time_loop fieldBits roll m0 st0) = true := by
      simp only [recomputes, hsub, decide_eq_true_eq]
      omega
    rw [Time_loop_of_recomputes hrec1, mod_ulong_of_lt hm1]
    exact decompose_eq_spec hbits hm1

theorem Time_loop_rate_limit_witness :
    (6 ≤ 8 ∧ 2000 < 2 ^ 32 ∧ recomputes 2000 TrackerState.init = true ∧ 2000 ≤ 3001 ∧
        3001 < 2 ^ 32) ∧
      ((Time_loop 8 true 2000 TrackerState.init).UpTime_Marker = 2000 ∧
        (3001 - 2000 ≤ 1000 →
          Time_loop 8 true 3001 (Time_loop 8 true 2000 TrackerState.init) =
            Time_loop 8 true 2000 TrackerState.init) ∧
        (3001 - 2000 > 1000 →
          (Time_loop 8 true 3001 (Time_loop 8 true 2000 TrackerState.init)).UpTime =
            specDecomposition 3001)) :=
  ⟨⟨by decide, by decide, by decide, by decide, by decide⟩,
    Time_loop_rate_limit 8 true TrackerState.init 2000 3001 (by decide) (by decide)
      (by decide) (by decide) (by decide)⟩

/-- C7, counterexample: on the non-decreasing readings 4,060,800,000 and 4,060,802,000
(both with days = 47) the first tick issues a restart request and the second tick,
with days still above 46, issues another one: two requests, not exactly one. -/
theorem Time_loop_restart_counterexample :
    (4060800000 : Nat) ≤ 4060802000 ∧
      (runTicks 8 true [4060800000] TrackerState.init).UpTime.days = 47 ∧
      (runTicks 8 true [4060800000] TrackerState.init).resetRequests = 1 ∧
      (runTicks 8 true [4060800000, 4060802000] TrackerState.init).UpTime.days = 47 ∧
      (runTicks 8 true [4060800000, 4060802000] TrackerState.init).resetRequests = 2 := by
  decide

/-- C7, amended (`TAKE_CARE_OF_MILLIS_ROLLOVER` defined, reset recorded and returning):
a tick issues one restart request exactly when it recomputes and its reading is at least
4,060,800,000 ms, which is exactly when the recomputed days value exceeds 46; otherwise
it issues none. Hence no request is issued over any run of readings below
4,060,800,000, one is issued at the first recomputing tick with days above 46, and
every later recomputing tick with days still above 46 issues a further request. -/
theorem Time_loop_restart (fieldBits : Nat) (st : TrackerState) (ms : Nat)
    (hbits : 6 ≤ fieldBits) (hms : ms < 2 ^ 32) :
    ((recomputes ms st = true ∧ 4060800000 ≤ ms) →
        (Time_loop fieldBits true ms st).resetRequests = st.resetRequests + 1) ∧
      (¬ (recomputes ms st = true ∧ 4060800000 ≤ ms) →
        (Time_loop fieldBits true ms st).resetRequests = st.resetRequests) ∧
      (recomputes ms st = true →
        ((Time_loop fieldBits true ms st).UpTime.days > 46 ↔ 4060800000 ≤ ms)) ∧
      (∀ readings : List Nat, (∀ x ∈ readings, x < 4060800000) →
        (runTicks fieldBits true readings st).resetRequests = st.resetRequests) := by
  have hstep : ∀ (m : Nat) (s : TrackerState), m < 2 ^ 32 →
      (Time_loop fieldBits true m s).resetRequests =
        s.resetRequests + (if recomputes m s = true ∧ 4060800000 ≤ m then 1 else 0) := by
    intro m s hm
    cases hr : recomputes m s with
    | false => simp [Time_loop_of_not_recomputes hr]
    | true =>
      rw [Time_loop_of_recomputes hr, mod_ulong_of_lt hm, decompose_eq_spec hbits hm]
      by_cases hd : 4060800000 ≤ m
      · simp [(days_gt_iff m).mpr hd, hd]
      · have hnd : ¬ (specDecomposition m).days > 46 := fun h => hd ((days_gt_iff m).mp h)
        simp [hnd, hd]
  refine ⟨?_, ?_, ?_, ?_⟩
  · intro h
    rw [hstep ms st hms, if_pos h]
  · intro h
    rw [hstep ms st hms, if_neg h]
    rfl
  · intro hr
    rw [Time_loop_of_recomputes hr, mod_ulong_of_lt hms, decompose_eq_spec hbits hms]
    exact days_gt_iff ms
  · intro readings
    induction readings generalizing st with
    | nil => intro _; rfl
    | cons m rest ih =>
      intro hall
      have hm : m < 4060800000 := hall m (List.mem_cons_self m rest)
      have hrest : ∀ x ∈ rest, x < 4060800000 := fun x hx =>
        hall x (List.mem_cons_of_mem m hx)
      have hno : ¬ (recomputes m st = true ∧ 4060800000 ≤ m) := fun h => by omega
      simp only [runTicks]
      rw [ih (Time_loop fieldBits true m st) hrest, hstep m st (by omega), if_neg hno]
      rfl

theorem Time_loop_restart_witness :
    (6 ≤ 8 ∧ 4060800000 < 2 ^ 32) ∧
      (((recomputes 4060800000 TrackerState.init = true ∧ 4060800000 ≤ 4060800000) →
          (Time_loop 8 true 4060800000 TrackerState.init).resetRequests =
            TrackerState.init.resetRequests + 1) ∧
        (¬ (recomputes 4060800000 TrackerState.init = true ∧ 4060800000 ≤ 4060800000) →
          (Time_loop 8 true 4060800000 TrackerState.init).resetRequests =
            TrackerState.init.resetRequests) ∧
        (recomputes 4060800000 TrackerState.init = true →
          ((Time_loop 8 true 4060800000 TrackerState.init).UpTime.days > 46 ↔
            4060800000 ≤ 4060800000)) ∧
        (∀ readings : List Nat, (∀ x ∈ readings, x < 4060800000) →
          (runTicks 8 true readings TrackerState.init).resetRequests =
            TrackerState.init.resetRequests)) :=
  ⟨⟨by decide, by decide⟩,
    Time_loop_restart 8 TrackerState.init 4060800000 (by decide) (by decide)⟩

/-- C9, counterexample: from the initial state the tick at 1500 ms recomputes
(seconds = 1); the tick at 2000 ms is rate-limited, so the cached fields still say
seconds = 1 while the decomposition of its own reading says seconds = 2. -/
theorem runTicks_tracks_reading_counterexample :
    List.Pairwise (fun a b => a ≤ b) [1500, 2000] ∧
      (runTicks 8 true [1500, 2000] TrackerState.init).UpTime =
        { days := 0, hours := 0, minutes := 0, seconds := 1 } ∧
      specDecomposition 2000 = { days := 0, hours := 0, minutes := 0, seconds := 2 } ∧
      (runTicks 8 true [1500, 2000] TrackerState.init).UpTime ≠ specDecomposition 2000 := by
  decide

/-- C9, amended: for every sequence of ticks with non-decreasing 32-bit millisecond
readings starting from the initial state, after each tick the cached
days/hours/minutes/seconds equal the decomposition of `UpTime_Marker`, the reading of the
latest tick that recomputed (0 if none did), which is never later than the tick's own
reading and never more than 1000 ms behind it; when the tick itself recomputed, the
cached fields equal the decomposition of its own reading. -/
theorem runTicks_tracks_marker (fieldBits : Nat) (roll : Bool) (pre : List Nat) (m : Nat)
    (hbits : 6 ≤ fieldBits) (hsorted : List.Pairwise (fun a b => a ≤ b) (pre ++ [m]))
    (hm : m < 2 ^ 32) :
    (runTicks fieldBits roll (pre ++ [m]) TrackerState.init).UpTime =
        specDecomposition
          (runTicks fieldBits roll (pre ++ [m]) TrackerState.init).UpTime_Marker ∧
      (runTicks fieldBits roll (pre ++ [m]) TrackerState.init).UpTime_Marker ≤ m ∧
      m - (runTicks fieldBits roll (pre ++ [m]) TrackerState.init).UpTime_Marker ≤ 1000 ∧
      (recomputes m (runTicks fieldBits roll pre TrackerState.init) = true →
        (runTicks fieldBits roll (pre ++ [m]) TrackerState.init).UpTime =
          specDecomposition m) :=
  runTicks_marker hbits pre m TrackerState.init hsorted hm
    (fun x _ => Nat.zero_le x) (by decide)

theorem runTicks_tracks_marker_witness :
    (6 ≤ 8 ∧ List.Pairwise (fun a b => a ≤ b) ([1500] ++ [2000]) ∧ 2000 < 2 ^ 32) ∧
      ((runTicks 8 true ([1500] ++ [2000]) TrackerState.init).UpTime =
          specDecomposition
            (runTicks 8 true ([1500] ++ [2000]) TrackerState.init).UpTime_Marker ∧
        (runTicks 8 true ([1500] ++ [2000]) TrackerState.init).UpTime_Marker ≤ 2000 ∧
        2000 - (runTicks 8 true ([1500] ++ [2000]) TrackerState.init).UpTime_Marker ≤ 1000 ∧
        (recomputes 2000 (runTicks 8 true [1500] TrackerState.init) = true →
          (runTicks 8 true ([1500] ++ [2000]) TrackerState.init).UpTime =
            specDecomposition 2000)) :=
  ⟨⟨by decide, by decide, by decide⟩,
    runTicks_tracks_marker 8 true [1500] 2000 (by decide) (by decide) (by decide)⟩

/-! ### Theorems about `Time_setup` -/

/-- C1: in client mode, for every `T` and every 48-byte reply whose bytes 40..43, read as
a big-endian unsigned 32-bit integer, equal `2208988800 + T` (so `2208988800 + T < 2^32`),
the value passed to `setTime` is exactly `T`, whatever the other 44 bytes are and
whichever attempt `k` (0-based, first answered) received the reply; `setTime` is called
once and the clock holds `T`. -/
theorem Time_setup_reply_epoch (env : Env) (ip : Nat) (buf : List Nat) (clock T k : Nat)
    (hmode : env.modeIsAP = false) (hk : k < 4)
    (hpre : ∀ j < k, env.parsePacket (j + 1) = 0) (ha : env.parsePacket (k + 1) ≠ 0)
    (hlen : (env.datagram (k + 1)).length = 48)
    (hbytes : ∀ b ∈ env.datagram (k + 1), b < 256)
    (hfield : (env.datagram (k + 1)).getD 40 0 * 2 ^ 24
        + (env.datagram (k + 1)).getD 41 0 * 2 ^ 16
        + (env.datagram (k + 1)).getD 42 0 * 2 ^ 8
        + (env.datagram (k + 1)).getD 43 0 = 2208988800 + T) :
    clockSets (Time_setup env (SyncState.start ip buf clock)).trace = [T] ∧
      (Time_setup env (SyncState.start ip buf clock)).clock = T := by
  obtain ⟨_, f2, _, _, f5⟩ := Time_setup_answered env ip buf clock _ _ _ hmode
    (attempts_split k hk) (silent_before env k hpre) ha
  have hread : udpRead (ntpRequest ++ buf.drop 48) (env.datagram (k + 1)) 48 =
      env.datagram (k + 1) ++ buf.drop 48 := by
    unfold udpRead
    rw [hlen, Nat.min_self, drop_ntpRequest_append, List.take_of_length_le (by omega)]
  have hget : ∀ i, i < 48 →
      (env.datagram (k + 1) ++ buf.drop 48).getD i 0 = (env.datagram (k + 1)).getD i 0 :=
    fun i hi => List.getD_append _ _ _ _ (by omega)
  have hlt : ∀ i, i < 48 → (env.datagram (k + 1)).getD i 0 < 256 := by
    intro i hi
    rw [List.getD_eq_getElem _ _ (by omega)]
    exact hbytes _ (List.getElem_mem _)
  have hsecs : secsSince1900 (env.datagram (k + 1) ++ buf.drop 48) = 2208988800 + T := by
    rw [secsSince1900_eq _ (by rw [hget 40 (by decide)]; exact hlt 40 (by decide))
      (by rw [hget 41 (by decide)]; exact hlt 41 (by decide))
      (by rw [hget 42 (by decide)]; exact hlt 42 (by decide))
      (by rw [hget 43 (by decide)]; exact hlt 43 (by decide)),
      hget 40 (by decide), hget 41 (by decide), hget 42 (by decide), hget 43 (by decide)]
    exact hfield
  have hbound : 2208988800 + T < 2 ^ 32 := by
    have h40 := hlt 40 (by decide)
    have h41 := hlt 41 (by decide)
    have h42 := hlt 42 (by decide)
    have h43 := hlt 43 (by decide)
    omega
  have hepoch : epochOf (env.datagram (k + 1) ++ buf.drop 48) = T := by
    unfold epochOf
    rw [hsecs]
    unfold seventyYears
    rw [usub_of_le (by omega) hbound]
    omega
  rw [f5, f2, hread, hepoch]
  exact ⟨rfl, rfl⟩

theorem Time_setup_reply_epoch_witness :
    ((answeringEnv 2 48 sampleReply).modeIsAP = false ∧ 1 < 4 ∧
        (∀ j < 1, (answeringEnv 2 48 sampleReply).parsePacket (j + 1) = 0) ∧
        (answeringEnv 2 48 sampleReply).parsePacket (1 + 1) ≠ 0 ∧
        ((answeringEnv 2 48 sampleReply).datagram (1 + 1)).length = 48 ∧
        (∀ b ∈ (answeringEnv 2 48 sampleReply).datagram (1 + 1), b < 256) ∧
        ((answeringEnv 2 48 sampleReply).datagram (1 + 1)).getD 40 0 * 2 ^ 24
          + ((answeringEnv 2 48 sampleReply).datagram (1 + 1)).getD 41 0 * 2 ^ 16
          + ((answeringEnv 2 48 sampleReply).datagram (1 + 1)).getD 42 0 * 2 ^ 8
          + ((answeringEnv 2 48 sampleReply).datagram (1 + 1)).getD 43 0
            = 2208988800 + 1700000000) ∧
      (clockSets (Time_setup (answeringEnv 2 48 sampleReply)
          (SyncState.start 0 (List.replicate 48 255) 7)).trace = [1700000000] ∧
        (Time_setup (answeringEnv 2 48 sampleReply)
          (SyncState.start 0 (List.replicate 48 255) 7)).clock = 1700000000) :=
  ⟨⟨rfl, by decide, by decide, by decide, by decide, by decide, by decide⟩,
    Time_setup_reply_epoch (answeringEnv 2 48 sampleReply) 0 (List.replicate 48 255) 7
      1700000000 1 rfl (by decide) (by decide) (by decide) (by decide) (by decide)
      (by decide)⟩

/-- C3: in client mode, if `parsePacket` returns 0 on each of the 4 attempts, then exactly
4 requests have been sent, `setTime` is never called and the clock is unchanged when
`Time_setup` returns, and the failure is signalled by the warning
"WARNING! Unable to sync time by NTP.", the last thing done before the (normal) return. -/
theorem Time_setup_no_reply (env : Env) (ip : Nat) (buf : List Nat) (clock : Nat)
    (hmode : env.modeIsAP = false) (hall : ∀ j < 4, env.parsePacket (j + 1) = 0) :
    (sentRequests (Time_setup env (SyncState.start ip buf clock)).trace).length = 4 ∧
      clockSets (Time_setup env (SyncState.start ip buf clock)).trace = [] ∧
      (Time_setup env (SyncState.start ip buf clock)).clock = clock ∧
      warned (Time_setup env (SyncState.start ip buf clock)).trace = true ∧
      (Time_setup env (SyncState.start ip buf clock)).trace.getLast? =
        some (Event.println "WARNING! Unable to sync time by NTP.") := by
  obtain ⟨f1, f2, _, f4, f5⟩ := Time_setup_silent env ip buf clock hmode (silent_all env hall)
  refine ⟨by rw [f2]; rfl, f4, f1, ?_, f5⟩
  have hmem := List.mem_of_getLast?_eq_some f5
  simpa [warned] using hmem

theorem Time_setup_no_reply_witness :
    (silentEnv.modeIsAP = false ∧ ∀ j < 4, silentEnv.parsePacket (j + 1) = 0) ∧
      ((sentRequests (Time_setup silentEnv (SyncState.start 0 [] 7)).trace).length = 4 ∧
        clockSets (Time_setup silentEnv (SyncState.start 0 [] 7)).trace = [] ∧
        (Time_setup silentEnv (SyncState.start 0 [] 7)).clock = 7 ∧
        warned (Time_setup silentEnv (SyncState.start 0 [] 7)).trace = true ∧
        (Time_setup silentEnv (SyncState.start 0 [] 7)).trace.getLast? =
          some (Event.println "WARNING! Unable to sync time by NTP.")) :=
  ⟨⟨rfl, by decide⟩, Time_setup_no_reply silentEnv 0 [] 7 rfl (by decide)⟩

/-- C4: in client mode, if `k` (0-based, `k ≤ 3`) is the first attempt on which
`parsePacket` returns non-zero, then exactly `k + 1` requests are sent, the hosts resolved
are exactly those of attempts `0..k` (none for a later attempt), and `setTime` is called
exactly once, with the epoch decoded from the buffer into which that reply was read. -/
theorem Time_setup_short_circuit (env : Env) (ip : Nat) (buf : List Nat) (clock k : Nat)
    (hmode : env.modeIsAP = false) (hk : k < 4)
    (hpre : ∀ j < k, env.parsePacket (j + 1) = 0) (ha : env.parsePacket (k + 1) ≠ 0) :
    (sentRequests (Time_setup env (SyncState.start ip buf clock)).trace).length = k + 1 ∧
      resolvedNames (Time_setup env (SyncState.start ip buf clock)).trace =
        poolNames.take (k + 1) ∧
      (Time_setup env (SyncState.start ip buf clock)).NTPPacketBuffer =
        udpRead (ntpRequest ++ buf.drop 48) (env.datagram (k + 1)) 48 ∧
      clockSets (Time_setup env (SyncState.start ip buf clock)).trace =
        [epochOf (Time_setup env (SyncState.start ip buf clock)).NTPPacketBuffer] ∧
      (Time_setup env (SyncState.start ip buf clock)).clock =
        epochOf (Time_setup env (SyncState.start ip buf clock)).NTPPacketBuffer := by
  obtain ⟨f1, f2, f3, f4, f5⟩ := Time_setup_answered env ip buf clock _ _ _ hmode
    (attempts_split k hk) (silent_before env k hpre) ha
  refine ⟨?_, ?_, f1, by rw [f5, f1], by rw [f2, f1]⟩
  · rw [f3]
    simp
  · rw [f4]
    interval_cases k <;> decide

theorem Time_setup_short_circuit_witness :
    ((answeringEnv 3 48 sampleReply).modeIsAP = false ∧ 2 < 4 ∧
        (∀ j < 2, (answeringEnv 3 48 sampleReply).parsePacket (j + 1) = 0) ∧
        (answeringEnv 3 48 sampleReply).parsePacket (2 + 1) ≠ 0) ∧
      ((sentRequests (Time_setup (answeringEnv 3 48 sampleReply)
          (SyncState.start 0 [] 7)).trace).length = 2 + 1 ∧
        resolvedNames (Time_setup (answeringEnv 3 48 sampleReply)
          (SyncState.start 0 [] 7)).trace = poolNames.take (2 + 1) ∧
        (Time_setup (answeringEnv 3 48 sampleReply) (SyncState.start 0 [] 7)).NTPPacketBuffer =
          udpRead (ntpRequest ++ ([] : List Nat).drop 48)
            ((answeringEnv 3 48 sampleReply).datagram (2 + 1)) 48 ∧
        clockSets (Time_setup (answeringEnv 3 48 sampleReply)
          (SyncState.start 0 [] 7)).trace =
          [epochOf (Time_setup (answeringEnv 3 48 sampleReply)
            (SyncState.start 0 [] 7)).NTPPacketBuffer] ∧
        (Time_setup (answeringEnv 3 48 sampleReply) (SyncState.start 0 [] 7)).clock =
          epochOf (Time_setup (answeringEnv 3 48 sampleReply)
            (SyncState.start 0 [] 7)).NTPPacketBuffer) :=
  ⟨⟨rfl, by decide, by decide, by decide⟩,
    Time_setup_short_circuit (answeringEnv 3 48 sampleReply) 0 [] 7 2 rfl (by decide)
      (by decide) (by decide)⟩

/-- C5: whatever the packet buffer held before and whatever the collaborators answer,
every datagram `Time_setup` sends goes to port 123, is exactly 48 bytes long, has a byte 0
that decodes as leap indicator 3 (top 2 bits), version 4 (next 3 bits) and mode 3 (low 3
bits), and has bytes 16..47 (the four timestamps) all zero; every request is the same 48
bytes, so the requests of all attempts are identical; in client mode at least one request
is sent. -/
theorem Time_setup_request_format (env : Env) (ip : Nat) (buf : List Nat) (clock : Nat) :
    (∀ req ∈ sentRequests (Time_setup env (SyncState.start ip buf clock)).trace,
        req.1 = 123 ∧ req.2.length = 48 ∧
          req.2.getD 0 0 >>> 6 = 3 ∧ (req.2.getD 0 0 >>> 3) &&& 7 = 4 ∧
          req.2.getD 0 0 &&& 7 = 3 ∧
          (∀ i < 48, 16 ≤ i → req.2.getD i 0 = 0) ∧
          req.2 = [0b11100011, 0, 6, 0xEC, 0, 0, 0, 0, 0, 0, 0, 0, 49, 0x4E, 49, 52,
            0, 0, 0, 0, 0, 0, 0, 0, 0, 0, 0, 0, 0, 0, 0, 0,
            0, 0, 0, 0, 0, 0, 0, 0, 0, 0, 0, 0, 0, 0, 0, 0]) ∧
      (∀ r1 ∈ sentRequests (Time_setup env (SyncState.start ip buf clock)).trace,
        ∀ r2 ∈ sentRequests (Time_setup env (SyncState.start ip buf clock)).trace, r1 = r2) ∧
      (env.modeIsAP = false →
        sentRequests (Time_setup env (SyncState.start ip buf clock)).trace ≠ []) := by
  obtain ⟨⟨n, hn, hpos⟩, _⟩ := Time_setup_requests env ip buf clock
  rw [hn]
  refine ⟨?_, ?_, ?_⟩
  · intro req hreq
    rw [List.eq_of_mem_replicate hreq]
    decide
  · intro r1 h1 r2 h2
    rw [List.eq_of_mem_replicate h1, List.eq_of_mem_replicate h2]
  · intro hmode hnil
    have hlen := congrArg List.length hnil
    have := hpos hmode
    simp at hlen
    omega

/-- C8: in client mode, when no attempt is answered, the host names passed to
`WiFi.hostByName` are exactly "0.pool.ntp.org", "1.pool.ntp.org", "2.pool.ntp.org",
"3.pool.ntp.org" in that order; in every run the names resolved are an initial segment of
that list, and the name resolved on 0-based attempt `i` is the decimal rendering of `i`
followed by ".pool.ntp.org". -/
theorem Time_setup_pool_names (env : Env) (ip : Nat) (buf : List Nat) (clock : Nat) :
    (env.modeIsAP = false → (∀ j < 4, env.parsePacket (j + 1) = 0) →
        resolvedNames (Time_setup env (SyncState.start ip buf clock)).trace =
          ["0.pool.ntp.org", "1.pool.ntp.org", "2.pool.ntp.org", "3.pool.ntp.org"]) ∧
      resolvedNames (Time_setup env (SyncState.start ip buf clock)).trace <+:
        ["0.pool.ntp.org", "1.pool.ntp.org", "2.pool.ntp.org", "3.pool.ntp.org"] ∧
      (∀ (i : Nat) (name : String),
        (resolvedNames (Time_setup env (SyncState.start ip buf clock)).trace)[i]? = some name →
          i < 4 ∧ name = toString i ++ ".pool.ntp.org") ∧
      (∀ i < 4, ntpServerNameOf (i + 1) = toString i ++ ".pool.ntp.org") := by
  obtain ⟨_, rest, hrest⟩ := Time_setup_requests env ip buf clock
  refine ⟨?_, ⟨rest, hrest⟩, ?_, by decide⟩
  · intro hmode hall
    obtain ⟨_, _, f3, _, _⟩ := Time_setup_silent env ip buf clock hmode (silent_all env hall)
    rw [f3, poolNames_eq]
    rfl
  · intro i name hname
    have hi : i < (resolvedNames (Time_setup env (SyncState.start ip buf clock)).trace).length :=
      (List.getElem?_eq_some_iff.mp hname).1
    have hpool : poolNames[i]? = some name := by
      rw [← hrest, List.getElem?_append_left hi]
      exact hname
    have hi4 : i < 4 := by
      have hlen := congrArg List.length hrest
      simp [poolNames] at hlen
      omega
    refine ⟨hi4, ?_⟩
    interval_cases i <;> simp [poolNames] at hpool <;> rw [← hpool] <;> decide

/-- C10: in client mode, let attempt `k` (0-based) be the first answered; the UDP read
overwrites only the first `min(len, 48)` bytes of the buffer. Whenever the field decoded
from the buffer is `s < 2208988800`, `setTime` is called with `s + 2085978496` (unsigned
wraparound of `s - 2208988800`), never rejected. In particular, for a reply of reported
length `len` with `1 ≤ len ≤ 40` and arbitrary content, bytes 40..43 of the buffer are
still the zeros of the request, the decoded seconds-since-1900 is 0 and the clock is set
to 2085978496. -/
theorem Time_setup_truncated_reply (env : Env) (ip : Nat) (buf : List Nat) (clock k : Nat)
    (hmode : env.modeIsAP = false) (hk : k < 4)
    (hpre : ∀ j < k, env.parsePacket (j + 1) = 0) (ha : env.parsePacket (k + 1) ≠ 0) :
    (secsSince1900 (Time_setup env (SyncState.start ip buf clock)).NTPPacketBuffer
          < 2208988800 →
        clockSets (Time_setup env (SyncState.start ip buf clock)).trace =
            [secsSince1900 (Time_setup env (SyncState.start ip buf clock)).NTPPacketBuffer
              + 2085978496] ∧
          (Time_setup env (SyncState.start ip buf clock)).clock =
            secsSince1900 (Time_setup env (SyncState.start ip buf clock)).NTPPacketBuffer
              + 2085978496) ∧
      (∀ len : Nat, 1 ≤ len → len ≤ 40 → env.parsePacket (k + 1) = (len : Int) →
        (env.datagram (k + 1)).length = len →
          (∀ i < 44, 40 ≤ i →
            (Time_setup env (SyncState.start ip buf clock)).NTPPacketBuffer.getD i 0 = 0) ∧
          secsSince1900 (Time_setup env (SyncState.start ip buf clock)).NTPPacketBuffer = 0 ∧
          clockSets (Time_setup env (SyncState.start ip buf clock)).trace = [2085978496] ∧
          (Time_setup env (SyncState.start ip buf clock)).clock = 2085978496) := by
  obtain ⟨f1, f2, _, _, f5⟩ := Time_setup_answered env ip buf clock _ _ _ hmode
    (attempts_split k hk) (silent_before env k hpre) ha
  have hwrap : ∀ b : List Nat, secsSince1900 b < 2208988800 →
      epochOf b = secsSince1900 b + 2085978496 := by
    intro b hb
    unfold epochOf usub seventyYears ULONG_MOD
    omega
  rw [f5, f2, f1]
  refine ⟨fun hs => ⟨by rw [hwrap _ hs], hwrap _ hs⟩, ?_⟩
  intro len _ h40 _ hlen
  have hzero : ∀ i < 44, 40 ≤ i →
      (udpRead (ntpRequest ++ buf.drop 48) (env.datagram (k + 1)) 48).getD i 0 = 0 := by
    intro i hi hlo
    rw [udpRead_getD_beyond _ _ i (by omega) (by omega),
      ntpRequest_getD_append _ i (by omega)]
    interval_cases i <;> decide
  have hsecs : secsSince1900 (udpRead (ntpRequest ++ buf.drop 48) (env.datagram (k + 1)) 48)
      = 0 := by
    rw [secsSince1900_eq _ (by rw [hzero 40 (by decide) (by decide)]; decide)
      (by rw [hzero 41 (by decide) (by decide)]; decide)
      (by rw [hzero 42 (by decide) (by decide)]; decide)
      (by rw [hzero 43 (by decide) (by decide)]; decide),
      hzero 40 (by decide) (by decide), hzero 41 (by decide) (by decide),
      hzero 42 (by decide) (by decide), hzero 43 (by decide) (by decide)]
    rfl
  have hepoch := hwrap _ (by rw [hsecs]; decide)
  rw [hsecs] at hepoch
  exact ⟨hzero, hsecs, by rw [hepoch], hepoch⟩

theorem Time_setup_truncated_reply_witness :
    ((answeringEnv 1 12 [1, 2, 3, 4, 5, 6, 7, 8, 9, 10, 11, 12]).modeIsAP = false ∧ 0 < 4 ∧
        (∀ j < 0, (answeringEnv 1 12 [1, 2, 3, 4, 5, 6, 7, 8, 9, 10, 11, 12]).parsePacket
          (j + 1) = 0) ∧
        (answeringEnv 1 12 [1, 2, 3, 4, 5, 6, 7, 8, 9, 10, 11, 12]).parsePacket (0 + 1) ≠ 0) ∧
      (1 ≤ 12 ∧ 12 ≤ 40 ∧
        (answeringEnv 1 12 [1, 2, 3, 4, 5, 6, 7, 8, 9, 10, 11, 12]).parsePacket (0 + 1)
          = ((12 : Nat) : Int) ∧
        ((answeringEnv 1 12 [1, 2, 3, 4, 5, 6, 7, 8, 9, 10, 11, 12]).datagram
          (0 + 1)).length = 12) ∧
      clockSets (Time_setup (answeringEnv 1 12 [1, 2, 3, 4, 5, 6, 7, 8, 9, 10, 11, 12])
        (SyncState.start 0 (List.replicate 48 255) 7)).trace = [2085978496] ∧
      (Time_setup (answeringEnv 1 12 [1, 2, 3, 4, 5, 6, 7, 8, 9, 10, 11, 12])
        (SyncState.start 0 (List.replicate 48 255) 7)).clock = 2085978496 :=
  ⟨⟨rfl, by decide, by decide, by decide⟩, ⟨by decide, by decide, by decide, by decide⟩,
    ((Time_setup_truncated_reply (answeringEnv 1 12 [1, 2, 3, 4, 5, 6, 7, 8, 9, 10, 11, 12]) 0
      (List.replicate 48 255) 7 0 rfl (by decide) (by decide) (by decide)).2 12 (by decide)
      (by decide) (by decide) (by decide)).2.2.1,
    ((Time_setup_truncated_reply (answeringEnv 1 12 [1, 2, 3, 4, 5, 6, 7, 8, 9, 10, 11, 12]) 0
      (List.replicate 48 255) 7 0 rfl (by decide) (by decide) (by decide)).2 12 (by decide)
      (by decide) (by decide) (by decide)).2.2.2⟩

end SoftRF
